import Mathlib

/-!
Shallow embedding of the on-chain core of the p2p-sportsbetting repository:
`src/contracts/BetManager.sol` and `src/contracts/BetOracleRegistry.sol`.

Modelling conventions:
* Addresses are natural numbers; `0` is the null address `address(0)`.
* Solidity `require` / revert is modelled by `Except`: an `.error` result means
  the whole call reverts and the caller keeps the pre-call state (the EVM rolls
  back every storage write and every value transfer of the transaction).
* The low-level value transfer `payable(x).call{value: v}("")` may be rejected
  by the recipient; this external behaviour is a parameter `acc : Address → Bool`
  (whether an address accepts funds).  A successful call returns the new state
  together with the list of value transfers it performed.
* `msg.sender`, `msg.value` and `block.timestamp` are explicit arguments.
* Contract ether balance is tracked in the state (`balance`), increased by
  `msg.value` on payable entry points and decreased by outgoing transfers.
-/

abbrev Address := Nat

/-- One outgoing value transfer performed by the contract. -/
structure Transfer where
  recipient : Address
  value : Nat
deriving DecidableEq, Repr

/-- `enum BetStatus` of `BetManager.sol`. -/
inductive BetStatus where
  | Open
  | Active
  | Completed
  | Cancelled
  | Refunded
deriving DecidableEq, Repr

/-- `struct Bet` of `BetManager.sol`. -/
structure Bet where
  creator : Address
  joiner : Address
  amount : Nat
  description : String
  deadline : Nat
  creatorWon : Bool
  status : BetStatus
  isSettled : Bool
  sportEvent : String
  selectedTeam : String
  threshold : Nat
  isMoreLine : Bool
deriving DecidableEq, Repr

/-- Revert reasons of `BetManager.sol` (the `require` messages). -/
inductive BMError where
  | betMissing          -- "Bet doesn't exist"
  | zeroValue           -- "Your bet has to have money on it!"
  | pastDeadline        -- "You can't set a deadline in the past!"
  | notOpen             -- "Bet isn't open"
  | selfJoin            -- "You created this bet, you can't join it!"
  | notAuthorized       -- "Caller is not authorized"
  | notActive           -- "Bet isn't active"
  | alreadySettled      -- "Bet already settled"
  | notJoined           -- "Bet hasn't been joined yet"
  | transferError       -- "Transfer error"
  | deadlineNotPassed   -- "Deadline hasn't passed"
  | creatorRefundFailed -- "Creator refund failed"
  | joinerRefundFailed  -- "Joiner refund failed"
  | onlyCreator         -- "Only creator can cancel"
  | alreadyJoined       -- "Bet has already been joined"
  | refundFailed        -- "Refund failed"
deriving DecidableEq, Repr

/-- Revert reasons of `BetOracleRegistry.sol`. -/
inductive RegError where
  | notOwner            -- OpenZeppelin Ownable: caller is not the owner
  | invalidOracle       -- "Invalid oracle address"
  | alreadyAuthorized   -- "Oracle already authorized"
  | oracleNotAuthorized -- "Not an authorized oracle" (trusted-set check)
  | betHasOracle        -- "Bet already has an oracle"
  | notOracleForBet     -- "Not authorized for this bet"
deriving DecidableEq, Repr

/-- Storage of `BetOracleRegistry`: the `Ownable` owner, the
`betOracles` mapping (betId to pinned oracle, default `0`) and the
`authorizedOracles` mapping (trusted set, default `false`). -/
structure RegistryState where
  owner : Address
  betOracles : Nat → Address
  authorizedOracles : Address → Bool

/-- Storage of `BetManager`: the `Ownable` owner, the `bets` array and the
contract's ether balance (custody). -/
structure BetManagerState where
  owner : Address
  bets : List Bet
  balance : Nat
deriving DecidableEq

namespace BetOracleRegistry

/-- `isAuthorizedOracle` of `BetOracleRegistry.sol`. -/
def isAuthorizedOracle (reg : RegistryState) (oracle : Address) : Bool :=
  reg.authorizedOracles oracle

/-- `addOracle` of `BetOracleRegistry.sol` (`onlyOwner`). -/
def addOracle (reg : RegistryState) (msgSender oracle : Address) :
    Except RegError RegistryState :=
  if msgSender = reg.owner then
    if oracle = 0 then .error .invalidOracle
    else if reg.authorizedOracles oracle = true then .error .alreadyAuthorized
    else .ok { reg with
      authorizedOracles := fun a => if a = oracle then true else reg.authorizedOracles a }
  else .error .notOwner

/-- `removeOracle` of `BetOracleRegistry.sol` (`onlyOwner`). -/
def removeOracle (reg : RegistryState) (msgSender oracle : Address) :
    Except RegError RegistryState :=
  if msgSender = reg.owner then
    if reg.authorizedOracles oracle = true then
      .ok { reg with
        authorizedOracles := fun a => if a = oracle then false else reg.authorizedOracles a }
    else .error .oracleNotAuthorized
  else .error .notOwner

/-- `assignOracleToBet` of `BetOracleRegistry.sol` (`onlyOwner`). -/
def assignOracleToBet (reg : RegistryState) (msgSender : Address) (betId : Nat)
    (oracle : Address) : Except RegError RegistryState :=
  if msgSender = reg.owner then
    if reg.authorizedOracles oracle = true then
      if reg.betOracles betId = 0 then
        .ok { reg with
          betOracles := fun b => if b = betId then oracle else reg.betOracles b }
      else .error .betHasOracle
    else .error .oracleNotAuthorized
  else .error .notOwner

/-- `getOracle` of `BetOracleRegistry.sol`. -/
def getOracle (reg : RegistryState) (betId : Nat) : Address :=
  reg.betOracles betId

/-- `submitResult` of `BetOracleRegistry.sol`.  The function body writes no
storage (it only emits an event and returns its argument), so the returned
state is the input state. -/
def submitResult (reg : RegistryState) (msgSender : Address) (betId : Nat)
    (creatorWon : Bool) : Except RegError (RegistryState × Bool) :=
  if reg.authorizedOracles msgSender = true then
    if reg.betOracles betId = 0 ∨ reg.betOracles betId = msgSender then
      .ok (reg, creatorWon)
    else .error .notOracleForBet
  else .error .oracleNotAuthorized

end BetOracleRegistry

namespace BetManager

open BetOracleRegistry

/-- `createBet` of `BetManager.sol` (payable). -/
def createBet (s : BetManagerState) (msgSender : Address) (msgValue : Nat)
    (description : String) (deadline : Nat) (sportEvent selectedTeam : String)
    (threshold : Nat) (isMoreLine : Bool) (now : Nat) :
    Except BMError BetManagerState :=
  if msgValue > 0 then
    if deadline > now then
      .ok { s with
        bets := s.bets ++ [{
          creator := msgSender
          joiner := 0
          amount := msgValue
          description := description
          deadline := deadline
          creatorWon := false
          status := .Open
          isSettled := false
          sportEvent := sportEvent
          selectedTeam := selectedTeam
          threshold := threshold
          isMoreLine := isMoreLine }]
        balance := s.balance + msgValue }
    else .error .pastDeadline
  else .error .zeroValue

/-- `joinBet` of `BetManager.sol` (payable).  Note: the deployed contract
checks only existence, `Open` status and self-join; it does not compare
`msg.value` with `bet.amount`. -/
def joinBet (s : BetManagerState) (msgSender : Address) (msgValue : Nat)
    (betId : Nat) : Except BMError BetManagerState :=
  match s.bets[betId]? with
  | none => .error .betMissing
  | some bet =>
    if bet.status = .Open then
      if msgSender ≠ bet.creator then
        .ok { s with
          bets := s.bets.set betId { bet with joiner := msgSender, status := .Active }
          balance := s.balance + msgValue }
      else .error .selfJoin
    else .error .notOpen

/-- `settleBet` of `BetManager.sol`. -/
def settleBet (reg : RegistryState) (s : BetManagerState) (msgSender : Address)
    (betId : Nat) (creatorWon : Bool) (acc : Address → Bool) :
    Except BMError (BetManagerState × List Transfer) :=
  match s.bets[betId]? with
  | none => .error .betMissing
  | some bet =>
    if isAuthorizedOracle reg msgSender = true ∨ s.owner = msgSender then
      if bet.status = .Active then
        if bet.isSettled = true then .error .alreadySettled
        else if bet.joiner ≠ 0 then
          let winner := if creatorWon then bet.creator else bet.joiner
          let totalAmount := bet.amount * 2
          if acc winner = true then
            .ok ({ s with
              bets := s.bets.set betId
                { bet with creatorWon := creatorWon, status := .Completed, isSettled := true }
              balance := s.balance - totalAmount },
              [⟨winner, totalAmount⟩])
          else .error .transferError
        else .error .notJoined
      else .error .notActive
    else .error .notAuthorized

/-- `timeoutBet` of `BetManager.sol`. -/
def timeoutBet (s : BetManagerState) (betId : Nat) (now : Nat)
    (acc : Address → Bool) : Except BMError (BetManagerState × List Transfer) :=
  match s.bets[betId]? with
  | none => .error .betMissing
  | some bet =>
    if now > bet.deadline then
      if bet.status = .Active then
        if bet.isSettled = true then .error .alreadySettled
        else if acc bet.creator = true then
          if acc bet.joiner = true then
            .ok ({ s with
              bets := s.bets.set betId { bet with status := .Refunded }
              balance := s.balance - (bet.amount + bet.amount) },
              [⟨bet.creator, bet.amount⟩, ⟨bet.joiner, bet.amount⟩])
          else .error .joinerRefundFailed
        else .error .creatorRefundFailed
      else .error .notActive
    else .error .deadlineNotPassed

/-- `cancelBet` of `BetManager.sol`. -/
def cancelBet (s : BetManagerState) (msgSender : Address) (betId : Nat)
    (acc : Address → Bool) : Except BMError (BetManagerState × List Transfer) :=
  match s.bets[betId]? with
  | none => .error .betMissing
  | some bet =>
    if msgSender = bet.creator then
      if bet.status = .Open then
        if bet.joiner = 0 then
          if acc bet.creator = true then
            .ok ({ s with
              bets := s.bets.set betId { bet with status := .Cancelled }
              balance := s.balance - bet.amount },
              [⟨bet.creator, bet.amount⟩])
          else .error .refundFailed
        else .error .alreadyJoined
      else .error .notOpen
    else .error .onlyCreator

/-- `getBetDetails` of `BetManager.sol`. -/
def getBetDetails (s : BetManagerState) (betId : Nat) : Except BMError Bet :=
  match s.bets[betId]? with
  | none => .error .betMissing
  | some bet => .ok bet

end BetManager

/-- The terminal statuses of the bet lifecycle. -/
def BetStatus.isTerminal : BetStatus → Bool
  | .Completed => true
  | .Cancelled => true
  | .Refunded => true
  | _ => false

/-! ## Helper lemmas and concrete fixtures -/

theorem lt_length_of_lookup {α : Type} {l : List α} {i : Nat} {a : α}
    (h : l[i]? = some a) : i < l.length :=
  (List.getElem?_eq_some.mp h).1

theorem lookup_set_self {α : Type} {l : List α} {i : Nat} {a b : α}
    (h : l[i]? = some a) : (l.set i b)[i]? = some b :=
  List.getElem?_set_eq_of_lt b (lt_length_of_lookup h)



/-- Fixture: a bet record with the given core fields and empty text fields. -/
def sampleBet (creator joiner : Address) (amount deadline : Nat)
    (status : BetStatus) (isSettled : Bool) : Bet :=
  { creator := creator
    joiner := joiner
    amount := amount
    description := ""
    deadline := deadline
    creatorWon := false
    status := status
    isSettled := isSettled
    sportEvent := ""
    selectedTeam := ""
    threshold := 0
    isMoreLine := false }

/-- Fixture: a one-bet ledger whose owner is address 9 and whose custody is
twice the bet's stake. -/
def sampleState (b : Bet) : BetManagerState :=
  { owner := 9, bets := [b], balance := 2 * b.amount }

/-- Fixture: every recipient accepts funds. -/
def accAll : Address → Bool := fun _ => true

/-- Fixture: no recipient accepts funds. -/
def accNone : Address → Bool := fun _ => false

/-- Fixture: a registry owned by address 0 whose only trusted reporter is
address 1, with bet 5 pinned to reporter 1. -/
def sampleReg : RegistryState :=
  { owner := 0
    betOracles := fun b => if b = 5 then 1 else 0
    authorizedOracles := fun a => decide (a = 1) }

/-! ## Claim theorems -/

/-- C1: the claim states that `joinBet` succeeds iff the attached funds equal
`bet.amount` exactly.  The deployed `joinBet` (`BetManager.sol` 100-111) never
reads `msg.value`: joining an Open bet of stake 100 with only 7 attached
succeeds and activates the bet.  This is the concrete failing input showing
the code contradicts the spec's P2 (and the repository's own earlier
`BetManager` in `src/unnamed/part_008`, which requires
`msg.value == bet.amount`). -/
theorem joinBet_accepts_mismatched_funds :
    (7 : Nat) ≠ 100 ∧
    BetManager.joinBet (sampleState (sampleBet 1 0 100 50 .Open false)) 2 7 0 =
      .ok { owner := 9
            bets := [sampleBet 1 2 100 50 .Active false]
            balance := 2 * 100 + 7 } := by
  constructor
  · decide
  · rfl

/-- C2: whenever `settleBet` succeeds, the disbursement is a single transfer
of exactly `2 * amount`, paid to the creator when `creatorWon` is true and to
the joiner when it is false, and the bet ends with status `Completed` and
`isSettled` true. -/
theorem settleBet_pays_double_single_winner
    (reg : RegistryState) (s : BetManagerState) (msgSender : Address)
    (betId : Nat) (creatorWon : Bool) (acc : Address → Bool) (bet : Bet)
    (s' : BetManagerState) (ts : List Transfer)
    (hbet : s.bets[betId]? = some bet)
    (h : BetManager.settleBet reg s msgSender betId creatorWon acc = .ok (s', ts)) :
    ts = [⟨if creatorWon then bet.creator else bet.joiner, bet.amount * 2⟩] ∧
    s'.bets[betId]? =
      some { bet with creatorWon := creatorWon, status := .Completed, isSettled := true } := by
  simp only [BetManager.settleBet, hbet] at h
  repeat' split at h
  all_goals cases h
  all_goals simp_all [lookup_set_self hbet]

/-- Fixture: an Active joined bet (creator 1, joiner 2, stake 100). -/
def c2Bet : Bet := sampleBet 1 2 100 50 .Active false

/-- Fixture: the ledger after settling `c2Bet` in favour of the creator. -/
def c2Settled : BetManagerState :=
  { owner := 9
    bets := [{ c2Bet with creatorWon := true, status := .Completed, isSettled := true }]
    balance := 0 }

/-- Witness for C2 at a concrete settlement. -/
theorem settleBet_pays_double_single_winner_witness :
    [Transfer.mk 1 200] =
      [⟨if true then c2Bet.creator else c2Bet.joiner, c2Bet.amount * 2⟩] ∧
    c2Settled.bets[0]? =
      some { c2Bet with creatorWon := true, status := .Completed, isSettled := true } :=
  settleBet_pays_double_single_winner sampleReg (sampleState c2Bet) 1 0 true accAll
    c2Bet c2Settled [Transfer.mk 1 200] rfl rfl

/-- C3: a failed fund transfer aborts the whole operation.  If the payout
recipient of `settleBet` rejects funds, `settleBet` cannot succeed; if either
refund recipient of `timeoutBet` rejects funds, `timeoutBet` cannot succeed.
A non-`ok` result is a revert: the caller keeps the pre-call state (bet fields
unchanged) and the call performs no transfers. -/
theorem transfer_failure_aborts
    (reg : RegistryState) (s : BetManagerState) (msgSender : Address)
    (betId : Nat) (creatorWon : Bool) (now : Nat) (acc : Address → Bool)
    (bet : Bet) (hbet : s.bets[betId]? = some bet) :
    (acc (if creatorWon then bet.creator else bet.joiner) = false →
      (BetManager.settleBet reg s msgSender betId creatorWon acc).isOk = false) ∧
    (acc bet.creator = false ∨ acc bet.joiner = false →
      (BetManager.timeoutBet s betId now acc).isOk = false) := by
  constructor
  · intro hacc
    simp only [BetManager.settleBet, hbet]
    repeat' split
    all_goals simp_all [Except.isOk, Except.toBool]
  · intro hacc
    simp only [BetManager.timeoutBet, hbet]
    repeat' split
    all_goals simp_all [Except.isOk, Except.toBool]

/-- Witness for C3: with a recipient that rejects funds, neither settlement
nor timeout succeeds on a concrete Active bet. -/
theorem transfer_failure_aborts_witness :
    (BetManager.settleBet sampleReg (sampleState c2Bet) 1 0 true accNone).isOk = false ∧
    (BetManager.timeoutBet (sampleState c2Bet) 0 100 accNone).isOk = false :=
  ⟨(transfer_failure_aborts sampleReg (sampleState c2Bet) 1 0 true 100 accNone c2Bet rfl).1 rfl,
   (transfer_failure_aborts sampleReg (sampleState c2Bet) 1 0 true 100 accNone c2Bet rfl).2 (Or.inl rfl)⟩

/-- C4: once a bet's status is terminal (`Completed`, `Cancelled` or
`Refunded`), every state-mutating entry point reverts on that bet, for every
caller, value, time and transfer behaviour; the revert leaves the bet and the
ledger's custody unchanged. -/
theorem terminal_status_blocks_mutations
    (reg : RegistryState) (s : BetManagerState) (msgSender : Address)
    (msgValue betId : Nat) (creatorWon : Bool) (now : Nat) (acc : Address → Bool)
    (bet : Bet) (hbet : s.bets[betId]? = some bet)
    (hterm : bet.status.isTerminal = true) :
    (BetManager.joinBet s msgSender msgValue betId).isOk = false ∧
    (BetManager.settleBet reg s msgSender betId creatorWon acc).isOk = false ∧
    (BetManager.timeoutBet s betId now acc).isOk = false ∧
    (BetManager.cancelBet s msgSender betId acc).isOk = false := by
  have hopen : bet.status ≠ .Open := by
    cases h : bet.status <;> simp_all [BetStatus.isTerminal]
  have hactive : bet.status ≠ .Active := by
    cases h : bet.status <;> simp_all [BetStatus.isTerminal]
  refine ⟨?_, ?_, ?_, ?_⟩ <;>
    simp only [BetManager.joinBet, BetManager.settleBet, BetManager.timeoutBet,
      BetManager.cancelBet, hbet] <;>
    (repeat' split) <;>
    simp_all [Except.isOk, Except.toBool]

/-- Fixture: a settled Completed bet. -/
def c4Bet : Bet := sampleBet 1 2 100 50 .Completed true

/-- Witness for C4 on a concrete Completed bet. -/
theorem terminal_status_blocks_mutations_witness :
    (BetManager.joinBet (sampleState c4Bet) 3 100 0).isOk = false ∧
    (BetManager.settleBet sampleReg (sampleState c4Bet) 1 0 true accAll).isOk = false ∧
    (BetManager.timeoutBet (sampleState c4Bet) 0 100 accAll).isOk = false ∧
    (BetManager.cancelBet (sampleState c4Bet) 1 0 accAll).isOk = false :=
  terminal_status_blocks_mutations sampleReg (sampleState c4Bet) 3 100 0 true 100
    accAll c4Bet rfl rfl

/-- C5: `settleBet` succeeds only for a caller that is a trusted reporter in
the registry or the ledger owner; the outcome of `settleBet` depends on the
registry only through its trusted set (so the registry's per-bet pinning map
is irrelevant); and any trusted reporter can settle an Active joined unsettled
bet whose winner accepts funds. -/
theorem settleBet_authorization
    (reg : RegistryState) (s : BetManagerState) (msgSender : Address)
    (betId : Nat) (creatorWon : Bool) (acc : Address → Bool)
    (bet : Bet) (hbet : s.bets[betId]? = some bet) :
    ((BetManager.settleBet reg s msgSender betId creatorWon acc).isOk = true →
      reg.authorizedOracles msgSender = true ∨ s.owner = msgSender) ∧
    (∀ reg₂ : RegistryState, reg₂.authorizedOracles = reg.authorizedOracles →
      BetManager.settleBet reg₂ s msgSender betId creatorWon acc =
        BetManager.settleBet reg s msgSender betId creatorWon acc) ∧
    (reg.authorizedOracles msgSender = true → bet.status = .Active →
      bet.isSettled = false → bet.joiner ≠ 0 →
      acc (if creatorWon then bet.creator else bet.joiner) = true →
      (BetManager.settleBet reg s msgSender betId creatorWon acc).isOk = true) := by
  refine ⟨?_, ?_, ?_⟩
  · intro hok
    simp only [BetManager.settleBet, hbet] at hok
    repeat' split at hok
    all_goals simp_all [Except.isOk, Except.toBool, BetOracleRegistry.isAuthorizedOracle]
  · intro reg₂ h
    simp only [BetManager.settleBet, BetOracleRegistry.isAuthorizedOracle, h]
  · intro hauth hst hset hj hacc
    simp_all [BetManager.settleBet, hbet, BetOracleRegistry.isAuthorizedOracle,
      Except.isOk, Except.toBool]

/-- Fixture: registry with trusted set {1, 7} and bet 0 pinned to reporter 7. -/
def c5Reg : RegistryState :=
  { owner := 0
    betOracles := fun b => if b = 0 then 7 else 0
    authorizedOracles := fun a => decide (a = 1 ∨ a = 7) }

/-- Witness for C5: reporter 1 settles bet 0 although bet 0 is pinned to the
different reporter 7 in the registry. -/
theorem settleBet_authorization_witness :
    BetOracleRegistry.getOracle c5Reg 0 = 7 ∧ (7 : Address) ≠ 1 ∧
    (BetManager.settleBet c5Reg (sampleState c2Bet) 1 0 true accAll).isOk = true :=
  ⟨rfl, by decide,
   (settleBet_authorization c5Reg (sampleState c2Bet) 1 0 true accAll c2Bet rfl).2.2
     rfl rfl rfl (by decide) rfl⟩

/-- C6: `submitResult` fails exactly when the caller is not trusted or the
bet has a pinned reporter other than the caller; on success it returns the
submitted outcome unchanged, with the registry storage unmodified (and it
takes no `BetManager` state at all). -/
theorem submitResult_spec (reg : RegistryState) (msgSender : Address)
    (betId : Nat) (creatorWon : Bool) :
    ((BetOracleRegistry.submitResult reg msgSender betId creatorWon).isOk = false ↔
      reg.authorizedOracles msgSender = false ∨
        (reg.betOracles betId ≠ 0 ∧ reg.betOracles betId ≠ msgSender)) ∧
    (∀ reg' b,
      BetOracleRegistry.submitResult reg msgSender betId creatorWon = .ok (reg', b) →
      reg' = reg ∧ b = creatorWon) := by
  constructor
  · unfold BetOracleRegistry.submitResult
    repeat' split
    all_goals simp_all [Except.isOk, Except.toBool]
    all_goals tauto
  · intro reg' b h
    unfold BetOracleRegistry.submitResult at h
    repeat' split at h
    all_goals cases h
    exact ⟨rfl, rfl⟩

/-- Witness for C6: reporter 1 submits a result for bet 5 (pinned to 1). -/
theorem submitResult_spec_witness : sampleReg = sampleReg ∧ true = true :=
  (submitResult_spec sampleReg 1 5 true).2 sampleReg true rfl

/-- C7: `timeoutBet` reverts whenever the current time is not strictly past
the bet's deadline or the bet is not Active; on success it refunds exactly
`amount` to the creator and exactly `amount` to the joiner and marks the bet
Refunded. -/
theorem timeoutBet_spec (s : BetManagerState) (betId now : Nat)
    (acc : Address → Bool) (bet : Bet) (hbet : s.bets[betId]? = some bet) :
    ((¬ now > bet.deadline ∨ bet.status ≠ .Active) →
      (BetManager.timeoutBet s betId now acc).isOk = false) ∧
    (∀ s' ts, BetManager.timeoutBet s betId now acc = .ok (s', ts) →
      ts = [⟨bet.creator, bet.amount⟩, ⟨bet.joiner, bet.amount⟩] ∧
      s'.bets[betId]? = some { bet with status := .Refunded }) := by
  constructor
  · intro hfail
    simp only [BetManager.timeoutBet, hbet]
    repeat' split
    all_goals simp_all [Except.isOk, Except.toBool]
  · intro s' ts h
    simp only [BetManager.timeoutBet, hbet] at h
    repeat' split at h
    all_goals cases h
    exact ⟨rfl, lookup_set_self hbet⟩

/-- Fixture: the ledger after timing out `c2Bet`. -/
def c7Refunded : BetManagerState :=
  { owner := 9, bets := [{ c2Bet with status := .Refunded }], balance := 0 }

/-- Witness for C7 at a concrete timeout past the deadline. -/
theorem timeoutBet_spec_witness :
    [Transfer.mk 1 100, Transfer.mk 2 100] =
      [⟨c2Bet.creator, c2Bet.amount⟩, ⟨c2Bet.joiner, c2Bet.amount⟩] ∧
    c7Refunded.bets[0]? = some { c2Bet with status := .Refunded } :=
  (timeoutBet_spec (sampleState c2Bet) 0 100 accAll c2Bet rfl).2 c7Refunded
    [Transfer.mk 1 100, Transfer.mk 2 100] rfl

/-- C8: `createBet` succeeds exactly when the deposit is positive and the
deadline strictly in the future; it appends one new Open bet (creator =
caller, amount = deposit, joiner unset) whose id is the previous bet count,
leaving every existing id untouched; and no other mutating operation ever
changes the number of bets, so ids are consecutive, never reused, and bets
are never deleted. -/
theorem createBet_spec (s : BetManagerState) (msgSender : Address)
    (msgValue : Nat) (description : String) (deadline : Nat)
    (sportEvent selectedTeam : String) (threshold : Nat) (isMoreLine : Bool)
    (now : Nat) :
    ((BetManager.createBet s msgSender msgValue description deadline sportEvent
        selectedTeam threshold isMoreLine now).isOk = true ↔
      msgValue > 0 ∧ deadline > now) ∧
    (∀ s', BetManager.createBet s msgSender msgValue description deadline
        sportEvent selectedTeam threshold isMoreLine now = .ok s' →
      s'.bets = s.bets ++
        [⟨msgSender, 0, msgValue, description, deadline, false, .Open, false,
          sportEvent, selectedTeam, threshold, isMoreLine⟩] ∧
      s'.bets[s.bets.length]? =
        some ⟨msgSender, 0, msgValue, description, deadline, false, .Open, false,
          sportEvent, selectedTeam, threshold, isMoreLine⟩ ∧
      (∀ i, i < s.bets.length → s'.bets[i]? = s.bets[i]?)) ∧
    (∀ a v bid s₂, BetManager.joinBet s a v bid = .ok s₂ →
      s₂.bets.length = s.bets.length) ∧
    (∀ reg a bid cw acc p, BetManager.settleBet reg s a bid cw acc = .ok p →
      p.1.bets.length = s.bets.length) ∧
    (∀ bid n acc p, BetManager.timeoutBet s bid n acc = .ok p →
      p.1.bets.length = s.bets.length) ∧
    (∀ a bid acc p, BetManager.cancelBet s a bid acc = .ok p →
      p.1.bets.length = s.bets.length) := by
  refine ⟨?_, ?_, ?_, ?_, ?_, ?_⟩
  · unfold BetManager.createBet
    repeat' split
    all_goals simp_all [Except.isOk, Except.toBool]
  · intro s' h
    unfold BetManager.createBet at h
    repeat' split at h
    all_goals cases h
    exact ⟨rfl, List.getElem?_concat_length _ _,
      fun i hi => List.getElem?_append_left hi⟩
  · intro a v bid s₂ h
    unfold BetManager.joinBet at h
    repeat' split at h
    all_goals cases h
    simp [List.length_set]
  · intro reg a bid cw acc p h
    rcases hbet : s.bets[bid]? with _ | bet
    · simp [BetManager.settleBet, hbet] at h
    · simp only [BetManager.settleBet, hbet] at h
      repeat' split at h
      all_goals cases h
      all_goals simp [List.length_set]
  · intro bid n acc p h
    unfold BetManager.timeoutBet at h
    repeat' split at h
    all_goals cases h
    simp [List.length_set]
  · intro a bid acc p h
    unfold BetManager.cancelBet at h
    repeat' split at h
    all_goals cases h
    simp [List.length_set]

/-- Fixture: an empty ledger. -/
def c8Start : BetManagerState := { owner := 9, bets := [], balance := 0 }

/-- Fixture: the ledger after the first `createBet` on `c8Start`. -/
def c8After : BetManagerState :=
  { owner := 9
    bets := [⟨1, 0, 100, "", 50, false, .Open, false, "", "", 0, false⟩]
    balance := 100 }

/-- Witness for C8: the first created bet gets id 0 and is appended. -/
theorem createBet_spec_witness :
    c8After.bets = ([] : List Bet) ++
      [⟨1, 0, 100, "", 50, false, .Open, false, "", "", 0, false⟩] :=
  ((createBet_spec c8Start 1 100 "" 50 "" "" 0 false 10).2.1 c8After rfl).1

/-- C9: with a creator that accepts funds, `cancelBet` succeeds exactly when
the bet exists, the caller is its creator, the status is Open and the joiner
is unset; on success it refunds exactly `amount` to the creator, marks the
bet Cancelled, and any second `cancelBet` on the same id then reverts. -/
theorem cancelBet_spec (s : BetManagerState) (msgSender : Address) (betId : Nat)
    (acc : Address → Bool) (bet : Bet) (hbet : s.bets[betId]? = some bet)
    (hacc : acc bet.creator = true) :
    ((BetManager.cancelBet s msgSender betId acc).isOk = true ↔
      msgSender = bet.creator ∧ bet.status = .Open ∧ bet.joiner = 0) ∧
    (∀ s' ts, BetManager.cancelBet s msgSender betId acc = .ok (s', ts) →
      ts = [⟨bet.creator, bet.amount⟩] ∧
      s'.bets[betId]? = some { bet with status := .Cancelled } ∧
      (∀ sender₂ acc₂, (BetManager.cancelBet s' sender₂ betId acc₂).isOk = false)) := by
  constructor
  · simp only [BetManager.cancelBet, hbet]
    repeat' split
    all_goals simp_all [Except.isOk, Except.toBool]
  · intro s' ts h
    simp only [BetManager.cancelBet, hbet] at h
    repeat' split at h
    all_goals cases h
    refine ⟨rfl, lookup_set_self hbet, ?_⟩
    intro sender₂ acc₂
    simp only [BetManager.cancelBet, lookup_set_self hbet]
    repeat' split
    all_goals simp_all [Except.isOk, Except.toBool]

/-- Fixture: an unjoined Open bet of creator 1. -/
def c9Bet : Bet := sampleBet 1 0 100 50 .Open false

/-- Fixture: the ledger after the creator cancels `c9Bet`. -/
def c9Cancelled : BetManagerState :=
  { owner := 9, bets := [{ c9Bet with status := .Cancelled }], balance := 100 }

/-- Witness for C9: creator 1 cancels bet 0, and a second cancel reverts. -/
theorem cancelBet_spec_witness :
    [Transfer.mk 1 100] = [⟨c9Bet.creator, c9Bet.amount⟩] ∧
    c9Cancelled.bets[0]? = some { c9Bet with status := .Cancelled } ∧
    (∀ sender₂ acc₂, (BetManager.cancelBet c9Cancelled sender₂ 0 acc₂).isOk = false) :=
  (cancelBet_spec (sampleState c9Bet) 1 0 accAll c9Bet rfl rfl).2 c9Cancelled
    [Transfer.mk 1 100] rfl

/-- C10: a successful `removeOracle` only clears the removed identity's
trusted-set membership: every pinned bet-to-reporter assignment still reads
back unchanged through `getOracle`, every other identity's trust is
unchanged, and the removed reporter's `submitResult` now reverts for every
bet because it is no longer trusted. -/
theorem removeOracle_frame (reg : RegistryState) (msgSender oracle : Address)
    (reg' : RegistryState)
    (h : BetOracleRegistry.removeOracle reg msgSender oracle = .ok reg') :
    (∀ betId, BetOracleRegistry.getOracle reg' betId =
      BetOracleRegistry.getOracle reg betId) ∧
    reg'.authorizedOracles oracle = false ∧
    (∀ a, a ≠ oracle → reg'.authorizedOracles a = reg.authorizedOracles a) ∧
    (∀ betId cw, (BetOracleRegistry.submitResult reg' oracle betId cw).isOk = false) := by
  unfold BetOracleRegistry.removeOracle at h
  repeat' split at h
  all_goals cases h
  refine ⟨fun betId => rfl, by simp, fun a ha => by simp [ha], ?_⟩
  intro betId cw
  simp [BetOracleRegistry.submitResult, Except.isOk, Except.toBool]

/-- Fixture: `sampleReg` after `removeOracle` strips reporter 1. -/
def c10Removed : RegistryState :=
  { owner := 0
    betOracles := fun b => if b = 5 then 1 else 0
    authorizedOracles := fun a => if a = 1 then false else decide (a = 1) }

/-- Witness for C10: after removing reporter 1, bet 5 still reads back as
pinned to 1 while reporter 1 can no longer submit results. -/
theorem removeOracle_frame_witness :
    BetOracleRegistry.getOracle c10Removed 5 = BetOracleRegistry.getOracle sampleReg 5 ∧
    c10Removed.authorizedOracles 1 = false ∧
    (BetOracleRegistry.submitResult c10Removed 1 5 true).isOk = false := by
  have h := removeOracle_frame sampleReg 0 1 c10Removed rfl
  exact ⟨h.1 5, h.2.1, h.2.2.2 5 true⟩
